import Mathlib

/-!
Shallow embedding of the alias-keyed persistence layer of the url-shortener
repository: package `sqlite` (`New`, `(*Storage).SaveURL`, `(*Storage).GetURL`,
`(*Storage).DeleteURL`) together with the SQLite engine semantics those
methods rely on (uniqueness constraint on `alias`, rowid assignment,
`sql.ErrNoRows`, `RowsAffected`).

The Go code talks to SQLite through `database/sql` with the mattn/go-sqlite3
driver.  The embedding splits each operation in two layers, mirroring the
source:

* an engine layer (`sqliteExecInsert`, `sqliteQueryRowScan`,
  `sqliteExecDelete`) giving the documented semantics of the single SQL
  statement each method executes against the table
  `url(id INTEGER PRIMARY KEY, alias TEXT NOT NULL UNIQUE, url TEXT NOT NULL)`;
* the Go layer (`SaveURL`, `GetURL`, `DeleteURL`) copied from the source:
  error classification (`sqlite3.ErrConstraintUnique` → `storage.ErrURLExists`,
  `sql.ErrNoRows` → `storage.ErrURLNotFound`) and `fmt.Errorf("%s: %w", op, err)`
  wrapping.

I/O and connection failures are nondeterministic inputs from the environment;
they are modelled by an explicit `fault : Option GoErr` argument injected at
the point where the engine executes the statement (`none` = the statement
executes normally).  All claims about normal operation instantiate
`fault := none`.
-/

/-- Go error values as they flow through the storage layer.  `wrap ctx e`
models `fmt.Errorf("<ctx>: %w", e)`; the sentinels model
`storage.ErrURLExists`, `storage.ErrURLNotFound` (package
`url-shortener/internal/storage`, declared outside the provided sources but
used by name in `part_000`), `sql.ErrNoRows`, and a mattn/go-sqlite3
`sqlite3.Error` carrying its extended result code. -/
inductive GoErr : Type
  | errURLExists : GoErr
  | errURLNotFound : GoErr
  | sqlNoRows : GoErr
  | sqlite3Error (extendedCode : Nat) : GoErr
  | wrap (ctx : String) (cause : GoErr) : GoErr
deriving DecidableEq, Repr

/-- Semantics of `errors.Is(e, target)`: equality, else unwrap `%w` chains. -/
def GoErr.is : GoErr → GoErr → Bool
  | .wrap ctx cause, target => (GoErr.wrap ctx cause == target) || cause.is target
  | e, target => e == target

/-- SQLITE_CONSTRAINT_UNIQUE, the extended result code `sqlite3.ErrConstraintUnique`. -/
def sqliteConstraintUniqueCode : Nat := 2067

/-- The type assertion plus extended-code test in `SaveURL`:
`err.(sqlite3.Error)` succeeding with
`sqliteErr.ExtendedCode == sqlite3.ErrConstraintUnique`. -/
def GoErr.isConstraintUnique : GoErr → Bool
  | .sqlite3Error code => code == sqliteConstraintUniqueCode
  | _ => false

/-- True iff the error is a `fmt.Errorf` wrapper, i.e. carries any context
string at all in front of an underlying cause. -/
def GoErr.hasContext : GoErr → Bool
  | .wrap _ _ => true
  | _ => false

/-- True iff the error is a wrapper whose context string starts with the
given operation name (the source always formats `"%s: ..."` with `op` first). -/
def GoErr.mentionsOp (e : GoErr) (op : String) : Bool :=
  match e with
  | .wrap ctx _ => op.data.isPrefixOf ctx.data
  | _ => false

/-- One row of the table `url`: surrogate key `id` (SQLite rowid, since
`id INTEGER PRIMARY KEY` aliases the rowid), `alias`, and `url` columns. -/
structure Record : Type where
  id : Int
  «alias» : String
  url : String
deriving DecidableEq, Repr

/-- The contents of the `url` table reachable through the `*sql.DB` handle
held by `Storage`. -/
structure DB : Type where
  rows : List Record
deriving DecidableEq, Repr

/-- The rowid SQLite assigns to an INSERT that does not specify one, for a
table whose INTEGER PRIMARY KEY is declared WITHOUT AUTOINCREMENT: one more
than the largest rowid currently in use, and 1 for an empty table.  (All
rowids in this table are engine-assigned, hence positive, so folding `max`
from 0 computes the largest in use.) -/
def nextRowid (rows : List Record) : Int :=
  (rows.map Record.id).foldr max 0 + 1

/-- Engine semantics of `stmt.Exec(urlToSave, alias)` for
`INSERT INTO url(url, alias) VALUES(?, ?)`: a fault from the environment, or
a SQLITE_CONSTRAINT_UNIQUE failure when a row with this alias exists (UNIQUE
on the `alias` column), or success appending the new row with a fresh rowid. -/
def sqliteExecInsert (fault : Option GoErr) (rows : List Record)
    (urlToSave «alias» : String) : Except GoErr (Int × List Record) :=
  match fault with
  | some e => .error e
  | none =>
    if rows.any (fun r => r.«alias» == «alias») then
      .error (.sqlite3Error sqliteConstraintUniqueCode)
    else
      .ok (nextRowid rows, rows ++ [⟨nextRowid rows, «alias», urlToSave⟩])

/-- Engine semantics of `stmt.QueryRow(alias).Scan(&resURL)` for
`SELECT url FROM url WHERE alias = ?`: a fault, or `sql.ErrNoRows` when no
row matches, or the `url` column of the first matching row. -/
def sqliteQueryRowScan (fault : Option GoErr) (rows : List Record)
    («alias» : String) : Except GoErr String :=
  match fault with
  | some e => .error e
  | none =>
    match rows.find? (fun r => r.«alias» == «alias») with
    | none => .error .sqlNoRows
    | some r => .ok r.url

/-- Engine semantics of `s.db.Exec("DELETE FROM url WHERE alias = ?", alias)`:
a fault, or success removing every matching row, with `RowsAffected`
reporting how many were removed. -/
def sqliteExecDelete (fault : Option GoErr) (rows : List Record)
    («alias» : String) : Except GoErr (List Record × Int) :=
  match fault with
  | some e => .error e
  | none =>
    .ok (rows.filter (fun r => !(r.«alias» == «alias»)),
         ((rows.filter (fun r => r.«alias» == «alias»)).length : Int))

/-- Embedding of `func (s *Storage) SaveURL(urlToSave, alias string) (int64, error)`.
Executes the INSERT; on failure, a `sqlite3.Error` with extended code
`ErrConstraintUnique` becomes `fmt.Errorf("%s: %w", op, storage.ErrURLExists)`
and anything else is wrapped as `fmt.Errorf("%s: %w", op, err)`; on success
returns `res.LastInsertId()`, which for this driver is the rowid just
assigned (its error branch is unreachable: go-sqlite3 stores the id and
never fails there).  Returns the resulting error-or-id and the table state
after the call. -/
def SaveURL (fault : Option GoErr) (db : DB) (urlToSave «alias» : String) :
    Except GoErr Int × DB :=
  match sqliteExecInsert fault db.rows urlToSave «alias» with
  | .error e =>
    if e.isConstraintUnique then
      (.error (.wrap "storage.sqlite.SaveURL" .errURLExists), db)
    else
      (.error (.wrap "storage.sqlite.SaveURL" e), db)
  | .ok (id, rows) => (.ok id, ⟨rows⟩)

/-- Embedding of `func (s *Storage) GetURL(alias string) (string, error)`.
Runs the SELECT; `errors.Is(err, sql.ErrNoRows)` becomes the bare sentinel
`storage.ErrURLNotFound` (returned without any `fmt.Errorf` wrapping — see
line 124 of the source), any other failure is wrapped with the operation
context.  Read-only: no table state is returned because none is changed. -/
def GetURL (fault : Option GoErr) (db : DB) («alias» : String) :
    Except GoErr String :=
  match sqliteQueryRowScan fault db.rows «alias» with
  | .error e =>
    if e.is .sqlNoRows then
      .error .errURLNotFound
    else
      .error (.wrap "storage.sqlite.GetURL: execute statement" e)
  | .ok resURL => .ok resURL

/-- Embedding of `func (s *Storage) DeleteURL(alias string) (int64, error)`.
Runs the DELETE; failures are wrapped with the operation context; on success
returns `result.RowsAffected()` (whose error branch is unreachable for this
driver) and the table without the matching rows. -/
def DeleteURL (fault : Option GoErr) (db : DB) («alias» : String) :
    Except GoErr Int × DB :=
  match sqliteExecDelete fault db.rows «alias» with
  | .error e =>
    (.error (.wrap "storage.sqlite.DeleteURL: execute statement" e), db)
  | .ok (rows, rowsAffected) => (.ok rowsAffected, ⟨rows⟩)

/-- The schema objects `New` is responsible for, plus the table contents it
must preserve.  `autoIndexAliasExists` is the automatic unique index
(`sqlite_autoindex_url_1`) SQLite builds on the `alias` column to enforce
the `alias TEXT NOT NULL UNIQUE` column constraint, created together with
the table; `idxAliasExists` is the explicit `idx_alias` index the source
script additionally declares. -/
structure SchemaState : Type where
  urlTableExists : Bool
  autoIndexAliasExists : Bool
  idxAliasExists : Bool
  rows : List Record
deriving DecidableEq, Repr

/-- The two statements of the SQL script passed to `db.Prepare` in `New`:
`CREATE TABLE IF NOT EXISTS url(id INTEGER PRIMARY KEY, alias TEXT NOT NULL
UNIQUE, url TEXT NOT NULL);` followed by
`CREATE INDEX IF NOT EXISTS idx_alias ON url(alias);`. -/
inductive SqlStmt : Type
  | createTableIfNotExists : SqlStmt
  | createIndexIfNotExists : SqlStmt
deriving DecidableEq, Repr

/-- The script text of `New`, as a statement list. -/
def newScript : List SqlStmt :=
  [.createTableIfNotExists, .createIndexIfNotExists]

/-- Effect of executing one schema statement: both are IF NOT EXISTS, hence
create-if-absent and never destructive of existing rows or objects.
Creating the table also creates the automatic unique index enforcing the
`UNIQUE` constraint on the `alias` column. -/
def execSchemaStmt : SqlStmt → SchemaState → SchemaState
  | .createTableIfNotExists, s =>
    if s.urlTableExists then s
    else { s with urlTableExists := true, autoIndexAliasExists := true }
  | .createIndexIfNotExists, s =>
    if s.idxAliasExists then s else { s with idxAliasExists := true }

/-- Whether the backing store holds an index on the `alias` column of `url`:
either the automatic unique-constraint index or the scripted `idx_alias`. -/
def aliasIndexExists (s : SchemaState) : Bool :=
  s.autoIndexAliasExists || s.idxAliasExists

/-- Under database/sql with the go-sqlite3 driver, `db.Prepare` compiles only
the FIRST statement of a multi-statement string (sqlite3_prepare_v2 stops at
the first statement boundary; the tail is kept on the driver statement and
never reaches `Stmt.Exec`).  So the prepared statement of `New`'s script is
its head. -/
def prepareFirst (script : List SqlStmt) : Option SqlStmt :=
  script.head?

/-- Embedding of `func New(storagePath string) (*Storage, error)`: opens the database,
prepares the schema script and runs `stmt.Exec()` once.  With the storage
location accessible (the only case with deterministic semantics), this
executes exactly the single prepared statement on the existing schema
state. -/
def New (s : SchemaState) : SchemaState :=
  match prepareFirst newScript with
  | some stmt => execSchemaStmt stmt s
  | none => s

/-- Number of live rows carrying a given alias value. -/
def aliasCount (db : DB) («alias» : String) : Nat :=
  (db.rows.filter (fun r => r.«alias» == «alias»)).length

/-- The data-model invariant: at most one live record per alias value. -/
def UniqueAliases (db : DB) : Prop :=
  ∀ a : String, aliasCount db a ≤ 1

/-- Whether some live record carries the alias (the situation in which the
UNIQUE constraint makes an INSERT fail). -/
def aliasLive (db : DB) («alias» : String) : Bool :=
  db.rows.any (fun r => r.«alias» == «alias»)

/-! ### Basic lemmas about the embedded operations -/

theorem find?_append_singleton_of_any_eq_false {p : Record → Bool}
    (l : List Record) (x : Record) (h : l.any p = false) :
    (l ++ [x]).find? p = if p x then some x else none := by
  induction l with
  | nil =>
    simp only [List.nil_append, List.find?]
    cases hpx : p x <;> simp [hpx]
  | cons a t ih =>
    rw [List.any_cons, Bool.or_eq_false_iff] at h
    simpa [List.find?, h.1] using ih h.2

theorem find?_eq_none_of_any_eq_false {p : Record → Bool}
    (l : List Record) (h : l.any p = false) : l.find? p = none := by
  rw [List.find?_eq_none]
  intro x hx
  rw [← Bool.not_eq_true (l.any p), List.any_eq_true] at h
  exact fun hpx => h ⟨x, hx, hpx⟩

/-- A successful `SaveURL` (possible exactly when the alias is not live and
no fault occurs) appends one row holding the fresh rowid, the alias and the
target, and reports that rowid. -/
theorem saveURL_ok (db : DB) (u a : String) (h : aliasLive db a = false) :
    SaveURL none db u a =
      (.ok (nextRowid db.rows),
       ⟨db.rows ++ [⟨nextRowid db.rows, a, u⟩]⟩) := by
  unfold aliasLive at h
  simp [SaveURL, sqliteExecInsert, h]

/-- Running `SaveURL` on a live alias: the UNIQUE violation is classified and
surfaced as wrapped `storage.ErrURLExists`, and the table is unchanged. -/
theorem saveURL_duplicate (db : DB) (u a : String) (h : aliasLive db a = true) :
    SaveURL none db u a =
      (.error (.wrap "storage.sqlite.SaveURL" .errURLExists), db) := by
  unfold aliasLive at h
  simp [SaveURL, sqliteExecInsert, h, GoErr.isConstraintUnique,
    sqliteConstraintUniqueCode]

/-- Running `GetURL` on a non-live alias returns the bare `storage.ErrURLNotFound`. -/
theorem getURL_not_live (db : DB) (a : String) (h : aliasLive db a = false) :
    GetURL none db a = .error .errURLNotFound := by
  unfold aliasLive at h
  simp [GetURL, sqliteQueryRowScan, find?_eq_none_of_any_eq_false _ h, GoErr.is]

/-- Running `DeleteURL` without fault always succeeds: it drops every matching row
and reports how many were dropped. -/
theorem deleteURL_eq (db : DB) (a : String) :
    DeleteURL none db a =
      (.ok ((db.rows.filter (fun r => r.«alias» == a)).length : Int),
       ⟨db.rows.filter (fun r => !(r.«alias» == a))⟩) := by
  simp [DeleteURL, sqliteExecDelete]

/-- After a `DeleteURL`, the alias is no longer live. -/
theorem aliasLive_after_delete (db : DB) (a : String) :
    aliasLive (DeleteURL none db a).2 a = false := by
  rw [deleteURL_eq]
  unfold aliasLive
  rw [← Bool.not_eq_true _, List.any_eq_true]
  rintro ⟨r, hr, hra⟩
  rw [List.mem_filter] at hr
  rw [hra] at hr
  simp at hr

/-- If the alias was not live, `DeleteURL` leaves the table unchanged and
reports zero affected rows. -/
theorem deleteURL_not_live (db : DB) (a : String) (h : aliasLive db a = false) :
    DeleteURL none db a = (.ok 0, db) := by
  rw [deleteURL_eq]
  unfold aliasLive at h
  rw [← Bool.not_eq_true _, List.any_eq_true] at h
  have hnil : db.rows.filter (fun r => r.«alias» == a) = [] := by
    rw [List.filter_eq_nil_iff]
    exact fun r hr hra => h ⟨r, hr, hra⟩
  have hall : db.rows.filter (fun r => !(r.«alias» == a)) = db.rows := by
    rw [List.filter_eq_self]
    intro r hr
    cases hc : (r.«alias» == a) with
    | true => exact absurd ⟨r, hr, hc⟩ h
    | false => simp [hc]
  rw [hnil, hall]
  rfl


/-- After a successful save, the alias is live. -/
theorem aliasLive_after_save (db : DB) (u a : String)
    (h : aliasLive db a = false) :
    aliasLive (SaveURL none db u a).2 a = true := by
  rw [saveURL_ok db u a h]
  simp [aliasLive, List.any_append]

/-- After a successful save, `GetURL` on the alias returns exactly the saved
target. -/
theorem getURL_after_save (db : DB) (u a : String)
    (h : aliasLive db a = false) :
    GetURL none (SaveURL none db u a).2 a = .ok u := by
  rw [saveURL_ok db u a h]
  unfold aliasLive at h
  simp [GetURL, sqliteQueryRowScan,
    find?_append_singleton_of_any_eq_false _ _ h]

/-- A successful save is exactly one on a non-live alias. -/
theorem saveURL_ok_iff (db : DB) (u a : String) :
    (∃ i, (SaveURL none db u a).1 = .ok i) ↔ aliasLive db a = false := by
  constructor
  · rintro ⟨i, hi⟩
    cases hl : aliasLive db a with
    | false => rfl
    | true =>
      rw [saveURL_duplicate db u a hl] at hi
      exact absurd hi (by simp)
  · intro h
    exact ⟨nextRowid db.rows, by rw [saveURL_ok db u a h]⟩

/-! ### Claim theorems -/

/-- C1: after a successful `SaveURL(u1, a)`, any subsequent `SaveURL(u2, a)`
on the resulting storage state fails with the typed error
`storage.ErrURLExists` wrapped with the operation context — an error that
`errors.Is`-matches `ErrURLExists` and is not a raw engine
(`sqlite3.Error`) value — the failed save leaves the table unchanged, and
`GetURL(a)` afterwards still returns `u1`. -/
theorem C1_second_save_fails_typed_and_preserves (db : DB) (u1 u2 a : String)
    (h : ∃ i, (SaveURL none db u1 a).1 = .ok i) :
    (SaveURL none (SaveURL none db u1 a).2 u2 a).1 =
        .error (.wrap "storage.sqlite.SaveURL" .errURLExists) ∧
    GoErr.is (GoErr.wrap "storage.sqlite.SaveURL" .errURLExists)
        .errURLExists = true ∧
    GoErr.isConstraintUnique
        (GoErr.wrap "storage.sqlite.SaveURL" .errURLExists) = false ∧
    (SaveURL none (SaveURL none db u1 a).2 u2 a).2 = (SaveURL none db u1 a).2 ∧
    GetURL none (SaveURL none db u1 a).2 a = .ok u1 := by
  have hna : aliasLive db a = false := (saveURL_ok_iff db u1 a).1 h
  have hlive := aliasLive_after_save db u1 a hna
  refine ⟨?_, rfl, rfl, ?_, getURL_after_save db u1 a hna⟩
  · rw [saveURL_duplicate _ u2 a hlive]
  · rw [saveURL_duplicate _ u2 a hlive]

/-- Witness for C1 on the spec's own scenario: save `ex1`, then a second
save of the same alias fails typed and the first mapping survives. -/
theorem C1_second_save_fails_typed_and_preserves_witness :
    (∃ i, (SaveURL none ⟨[]⟩ "https://example.com" "ex1").1 = .ok i) ∧
    ((SaveURL none (SaveURL none ⟨[]⟩ "https://example.com" "ex1").2
        "https://other.com" "ex1").1 =
          .error (.wrap "storage.sqlite.SaveURL" .errURLExists) ∧
     GoErr.is (GoErr.wrap "storage.sqlite.SaveURL" .errURLExists)
        .errURLExists = true ∧
     GoErr.isConstraintUnique
        (GoErr.wrap "storage.sqlite.SaveURL" .errURLExists) = false ∧
     (SaveURL none (SaveURL none ⟨[]⟩ "https://example.com" "ex1").2
        "https://other.com" "ex1").2 =
          (SaveURL none ⟨[]⟩ "https://example.com" "ex1").2 ∧
     GetURL none (SaveURL none ⟨[]⟩ "https://example.com" "ex1").2 "ex1" =
        .ok "https://example.com") :=
  ⟨⟨1, rfl⟩,
   C1_second_save_fails_typed_and_preserves ⟨[]⟩ "https://example.com"
     "https://other.com" "ex1" ⟨1, rfl⟩⟩

/-- C2: for non-empty target `u` and non-empty alias `a` with no live record,
`SaveURL(u, a)` succeeds and an immediately following `GetURL(a)` returns
exactly `u`. -/
theorem C2_save_get_roundtrip (db : DB) (u a : String)
    (hu : u ≠ "") (ha : a ≠ "") (h : aliasLive db a = false) :
    (∃ i, (SaveURL none db u a).1 = .ok i) ∧
    GetURL none (SaveURL none db u a).2 a = .ok u :=
  ⟨(saveURL_ok_iff db u a).2 h, getURL_after_save db u a h⟩

/-- Witness for C2 at a concrete fresh table. -/
theorem C2_save_get_roundtrip_witness :
    (("https://example.com" : String) ≠ "" ∧ ("ex1" : String) ≠ "" ∧
      aliasLive ⟨[]⟩ "ex1" = false) ∧
    ((∃ i, (SaveURL none ⟨[]⟩ "https://example.com" "ex1").1 = .ok i) ∧
     GetURL none (SaveURL none ⟨[]⟩ "https://example.com" "ex1").2 "ex1" =
       .ok "https://example.com") :=
  ⟨⟨by decide, by decide, rfl⟩,
   C2_save_get_roundtrip ⟨[]⟩ "https://example.com" "ex1"
     (by decide) (by decide) rfl⟩

/-- C3: under the data-model invariant (at most one live record per alias),
`DeleteURL(a)` with no live record succeeds with affected count 0 and leaves
the table unchanged — never an error — while `DeleteURL(a)` on a live record
succeeds with affected count 1 and a following `GetURL(a)` fails with
`storage.ErrURLNotFound`. -/
theorem C3_delete_idempotent (db : DB) (a : String) (hu : UniqueAliases db) :
    (aliasLive db a = false → DeleteURL none db a = (.ok 0, db)) ∧
    (aliasLive db a = true →
      (DeleteURL none db a).1 = .ok 1 ∧
      GetURL none (DeleteURL none db a).2 a = .error .errURLNotFound) := by
  refine ⟨deleteURL_not_live db a, fun hl => ⟨?_, ?_⟩⟩
  · have hle : (db.rows.filter (fun r => r.«alias» == a)).length ≤ 1 := hu a
    unfold aliasLive at hl
    rw [List.any_eq_true] at hl
    obtain ⟨r, hr, hra⟩ := hl
    have hpos : 0 < (db.rows.filter (fun r => r.«alias» == a)).length :=
      List.length_pos_of_mem (List.mem_filter.2 ⟨hr, hra⟩)
    have h1 : (db.rows.filter (fun r => r.«alias» == a)).length = 1 := by
      omega
    rw [deleteURL_eq, h1]
    rfl
  · exact getURL_not_live _ a (aliasLive_after_delete db a)

/-- Witness for C3: both branches exercised on concrete one-row tables. -/
theorem C3_delete_idempotent_witness :
    (DeleteURL none ⟨[⟨1, "ex1", "https://example.com"⟩]⟩ "gone" =
       (.ok 0, ⟨[⟨1, "ex1", "https://example.com"⟩]⟩)) ∧
    (DeleteURL none ⟨[⟨1, "ex1", "https://example.com"⟩]⟩ "ex1").1 = .ok 1 ∧
    GetURL none (DeleteURL none ⟨[⟨1, "ex1", "https://example.com"⟩]⟩ "ex1").2
       "ex1" = .error .errURLNotFound :=
  ⟨(C3_delete_idempotent ⟨[⟨1, "ex1", "https://example.com"⟩]⟩ "gone"
      (fun _ => List.length_filter_le _ _)).1 rfl,
   (C3_delete_idempotent ⟨[⟨1, "ex1", "https://example.com"⟩]⟩ "ex1"
      (fun _ => List.length_filter_le _ _)).2 rfl⟩

/-- C4: `GetURL(a)` with no live record for `a` fails with exactly the typed
sentinel `storage.ErrURLNotFound` (which `errors.Is`-matches itself), while
any genuine engine failure comes back as a wrapped storage failure that does
NOT `errors.Is`-match `ErrURLNotFound` — so callers can tell a missing alias
from a broken storage engine. -/
theorem C4_get_missing_is_not_found (db : DB) (a : String) :
    (aliasLive db a = false → GetURL none db a = .error GoErr.errURLNotFound) ∧
    GoErr.is GoErr.errURLNotFound GoErr.errURLNotFound = true ∧
    (∀ e : GoErr, GoErr.is e .sqlNoRows = false →
      GoErr.is e .errURLNotFound = false →
      GetURL (some e) db a =
        .error (.wrap "storage.sqlite.GetURL: execute statement" e) ∧
      GoErr.is (GoErr.wrap "storage.sqlite.GetURL: execute statement" e)
        .errURLNotFound = false) := by
  refine ⟨getURL_not_live db a, rfl, fun e he1 he2 => ⟨?_, ?_⟩⟩
  · simp [GetURL, sqliteQueryRowScan, he1]
  · simp [GoErr.is, he2]

/-- Witness for C4: a never-saved alias on an empty table, and an injected
I/O-style engine fault, are distinguishable. -/
theorem C4_get_missing_is_not_found_witness :
    GetURL none ⟨[]⟩ "missing" = .error GoErr.errURLNotFound ∧
    GetURL (some (GoErr.sqlite3Error 10)) ⟨[]⟩ "missing" =
      .error (.wrap "storage.sqlite.GetURL: execute statement"
        (GoErr.sqlite3Error 10)) ∧
    GoErr.is (GoErr.wrap "storage.sqlite.GetURL: execute statement"
        (GoErr.sqlite3Error 10)) .errURLNotFound = false :=
  ⟨(C4_get_missing_is_not_found ⟨[]⟩ "missing").1 rfl,
   ((C4_get_missing_is_not_found ⟨[]⟩ "missing").2.2
      (GoErr.sqlite3Error 10) rfl rfl).1,
   ((C4_get_missing_is_not_found ⟨[]⟩ "missing").2.2
      (GoErr.sqlite3Error 10) rfl rfl).2⟩

/-- A non-live alias matches no row. -/
theorem filter_match_eq_nil (db : DB) (a : String) (h : aliasLive db a = false) :
    db.rows.filter (fun r => r.«alias» == a) = [] := by
  unfold aliasLive at h
  rw [← Bool.not_eq_true _, List.any_eq_true] at h
  rw [List.filter_eq_nil_iff]
  exact fun r hr hra => h ⟨r, hr, hra⟩

/-- After a successful save on a previously non-live alias, exactly the new
row matches that alias. -/
theorem filter_match_after_save (db : DB) (u a : String)
    (h : aliasLive db a = false) :
    (SaveURL none db u a).2.rows.filter (fun r => r.«alias» == a) =
      [⟨nextRowid db.rows, a, u⟩] := by
  rw [saveURL_ok db u a h]
  show (db.rows ++ [(⟨nextRowid db.rows, a, u⟩ : Record)]).filter
      (fun r => r.«alias» == a) = [(⟨nextRowid db.rows, a, u⟩ : Record)]
  rw [List.filter_append, filter_match_eq_nil db a h]
  simp [List.filter]

/-- Deleting an alias right after it was freshly saved affects exactly one
row. -/
theorem deleteURL_after_save (db : DB) (u a : String)
    (h : aliasLive db a = false) :
    (DeleteURL none (SaveURL none db u a).2 a).1 = .ok 1 := by
  rw [deleteURL_eq, filter_match_after_save db u a h]
  rfl

/-- C5 counterexample: on an empty store, `SaveURL("https://example.com",
"ex1")` returns id 1, `DeleteURL("ex1")` removes it, and the re-creating
`SaveURL("https://other.com", "ex1")` returns id 1 AGAIN — the id of the
deleted record is reused, because `id INTEGER PRIMARY KEY` without
AUTOINCREMENT makes SQLite pick one more than the largest rowid currently in
use, which drops back after the delete.  This refutes the claim's "the two
SaveURL calls return different id values". -/
theorem C5_counterexample_id_reused :
    (SaveURL none ⟨[]⟩ "https://example.com" "ex1").1 = .ok 1 ∧
    (DeleteURL none (SaveURL none ⟨[]⟩ "https://example.com" "ex1").2
       "ex1").1 = .ok 1 ∧
    (SaveURL none
       (DeleteURL none (SaveURL none ⟨[]⟩ "https://example.com" "ex1").2
          "ex1").2 "https://other.com" "ex1").1 = .ok 1 :=
  ⟨rfl, rfl, rfl⟩

/-- C5 (amended): `SaveURL(u1,a)`, `DeleteURL(a)` (affecting one row) and
`SaveURL(u2,a)` all succeed, and a following `GetURL(a)` returns `u2`; the
two ids need not differ — SQLite reassigns max-rowid-plus-one, so a deleted
record's id is handed out again whenever that record held the largest id. -/
theorem C5_recreate_after_delete (db : DB) (u1 u2 a : String)
    (h : aliasLive db a = false) :
    (∃ i, (SaveURL none db u1 a).1 = .ok i) ∧
    (DeleteURL none (SaveURL none db u1 a).2 a).1 = .ok 1 ∧
    (∃ j, (SaveURL none
       (DeleteURL none (SaveURL none db u1 a).2 a).2 u2 a).1 = .ok j) ∧
    GetURL none (SaveURL none
       (DeleteURL none (SaveURL none db u1 a).2 a).2 u2 a).2 a = .ok u2 := by
  have h2 : aliasLive (DeleteURL none (SaveURL none db u1 a).2 a).2 a = false :=
    aliasLive_after_delete _ a
  exact ⟨(saveURL_ok_iff db u1 a).2 h, deleteURL_after_save db u1 a h,
    (saveURL_ok_iff _ u2 a).2 h2, getURL_after_save _ u2 a h2⟩

/-- Witness for the amended C5 on an empty store. -/
theorem C5_recreate_after_delete_witness :
    aliasLive ⟨[]⟩ "ex1" = false ∧
    ((∃ i, (SaveURL none ⟨[]⟩ "https://example.com" "ex1").1 = .ok i) ∧
     (DeleteURL none (SaveURL none ⟨[]⟩ "https://example.com" "ex1").2
        "ex1").1 = .ok 1 ∧
     (∃ j, (SaveURL none
        (DeleteURL none (SaveURL none ⟨[]⟩ "https://example.com" "ex1").2
           "ex1").2 "https://other.com" "ex1").1 = .ok j) ∧
     GetURL none (SaveURL none
        (DeleteURL none (SaveURL none ⟨[]⟩ "https://example.com" "ex1").2
           "ex1").2 "https://other.com" "ex1").2 "ex1" =
       .ok "https://other.com") :=
  ⟨rfl, C5_recreate_after_delete ⟨[]⟩ "https://example.com"
     "https://other.com" "ex1" rfl⟩

/-- Only the first statement of the script ever runs, so `New` leaves the
scripted `idx_alias` exactly as it found it; the index on the `alias`
column that `New` does guarantee is the automatic one built with the
table's `UNIQUE` constraint. -/
theorem new_scripted_index_unchanged (s : SchemaState) :
    (New s).idxAliasExists = s.idxAliasExists := by
  cases hs : s.urlTableExists <;>
    simp [New, prepareFirst, newScript, execSchemaStmt, hs]

/-- C6: `New`, when it returns without error, has ensured that both the
`url` table and an index on its `alias` column exist in the backing store:
the executed `CREATE TABLE IF NOT EXISTS ... alias TEXT NOT NULL UNIQUE ...`
creates the table together with the automatic unique index
(`sqlite_autoindex_url_1`) on the alias column — each created only if
absent, never destroying existing data (rows are preserved, an existing
table is left untouched) — and calling `New` repeatedly succeeds and is
idempotent.  The hypothesis restricts to stores whose pre-existing `url`
table, if any, was created by this same schema (and so already carries its
alias index), which is every store this engine ever produces. -/
theorem C6_new_ensures_table_and_alias_index (s : SchemaState)
    (hw : s.urlTableExists = true → aliasIndexExists s = true) :
    (New s).urlTableExists = true ∧
    aliasIndexExists (New s) = true ∧
    (New s).rows = s.rows ∧
    (s.urlTableExists = true → New s = s) ∧
    New (New s) = New s := by
  cases hs : s.urlTableExists with
  | true =>
    have hnew : New s = s := by
      simp [New, prepareFirst, newScript, execSchemaStmt, hs]
    refine ⟨?_, ?_, ?_, fun _ => hnew, ?_⟩ <;> simp [hnew, hs, hw hs]
  | false =>
    refine ⟨?_, ?_, ?_, ?_, ?_⟩ <;>
      simp [New, prepareFirst, newScript, execSchemaStmt, aliasIndexExists, hs]

/-- Witness for C6 at a fresh, empty storage location: the table and the
alias index both exist afterwards, nothing is destroyed, and the call is
idempotent. -/
theorem C6_new_ensures_table_and_alias_index_witness :
    ((⟨false, false, false, []⟩ : SchemaState).urlTableExists = true →
       aliasIndexExists ⟨false, false, false, []⟩ = true) ∧
    ((New ⟨false, false, false, []⟩).urlTableExists = true ∧
     aliasIndexExists (New ⟨false, false, false, []⟩) = true ∧
     (New ⟨false, false, false, []⟩).rows =
       (⟨false, false, false, []⟩ : SchemaState).rows ∧
     ((⟨false, false, false, []⟩ : SchemaState).urlTableExists = true →
        New ⟨false, false, false, []⟩ = ⟨false, false, false, []⟩) ∧
     New (New ⟨false, false, false, []⟩) = New ⟨false, false, false, []⟩) :=
  ⟨by decide,
   C6_new_ensures_table_and_alias_index ⟨false, false, false, []⟩
     (by decide)⟩

/-- A faulted `SaveURL` leaves the table unchanged. -/
theorem saveURL_fault_state (e : GoErr) (db : DB) (u a : String) :
    (SaveURL (some e) db u a).2 = db := by
  cases he : e.isConstraintUnique <;>
    simp [SaveURL, sqliteExecInsert, he]

/-- A faulted `DeleteURL` leaves the table unchanged. -/
theorem deleteURL_fault_state (e : GoErr) (db : DB) (a : String) :
    (DeleteURL (some e) db a).2 = db := by
  simp [DeleteURL, sqliteExecDelete]

/-- Appending the fresh row of a successful save keeps alias counts at most
one. -/
theorem uniqueAliases_after_save_ok (db : DB) (u a : String)
    (h : aliasLive db a = false) (hu : UniqueAliases db) :
    UniqueAliases (SaveURL none db u a).2 := by
  intro x
  rw [saveURL_ok db u a h]
  show ((db.rows ++ [(⟨nextRowid db.rows, a, u⟩ : Record)]).filter
      (fun r => r.«alias» == x)).length ≤ 1
  rw [List.filter_append, List.length_append]
  by_cases hax : a = x
  · subst hax
    have h0 : db.rows.filter (fun r => r.«alias» == a) = [] :=
      filter_match_eq_nil db a h
    simp [h0, List.filter]
  · have hbx : (a == x) = false := beq_eq_false_iff_ne.mpr hax
    have h1 : ([(⟨nextRowid db.rows, a, u⟩ : Record)].filter
        (fun r => r.«alias» == x)) = [] := by
      simp [List.filter, hbx]
    rw [h1]
    simpa using hu x

/-- C7: the data-model invariant — at most one live record per alias — is
preserved by every operation, under any environment fault: `SaveURL` and
`DeleteURL` map invariant-satisfying tables to invariant-satisfying tables
(`GetURL` is read-only by construction: it returns no table state at all, so
there is nothing to preserve). -/
theorem C7_unique_alias_invariant_preserved (db : DB) (fault : Option GoErr)
    (u a : String) (hu : UniqueAliases db) :
    UniqueAliases (SaveURL fault db u a).2 ∧
    UniqueAliases (DeleteURL fault db a).2 := by
  constructor
  · cases fault with
    | some e => rw [saveURL_fault_state]; exact hu
    | none =>
      cases hl : aliasLive db a with
      | true => rw [saveURL_duplicate db u a hl]; exact hu
      | false => exact uniqueAliases_after_save_ok db u a hl hu
  · cases fault with
    | some e => rw [deleteURL_fault_state]; exact hu
    | none =>
      intro x
      rw [deleteURL_eq]
      show ((db.rows.filter (fun r => !(r.«alias» == a))).filter
          (fun r => r.«alias» == x)).length ≤ 1
      have hsub := (db.rows.filter_sublist (p := fun r => !(r.«alias» == a))).filter
        (fun r => r.«alias» == x)
      exact le_trans hsub.length_le (hu x)

/-- Witness for C7 at a concrete invariant-satisfying table. -/
theorem C7_unique_alias_invariant_preserved_witness :
    UniqueAliases ⟨[⟨1, "ex1", "https://example.com"⟩]⟩ ∧
    (UniqueAliases
       (SaveURL none ⟨[⟨1, "ex1", "https://example.com"⟩]⟩
         "https://other.com" "ex2").2 ∧
     UniqueAliases
       (DeleteURL none ⟨[⟨1, "ex1", "https://example.com"⟩]⟩ "ex2").2) :=
  ⟨fun _ => List.length_filter_le _ _,
   C7_unique_alias_invariant_preserved ⟨[⟨1, "ex1", "https://example.com"⟩]⟩
     none "https://other.com" "ex2"
     (fun _ => List.length_filter_le _ _)⟩

/-- Every error `SaveURL` can return is `fmt.Errorf`-wrapped with the
operation name `storage.sqlite.SaveURL` around an underlying cause. -/
theorem saveURL_error_wrapped (fault : Option GoErr) (db : DB) (u a : String)
    (e : GoErr) (he : (SaveURL fault db u a).1 = .error e) :
    ∃ c, e = .wrap "storage.sqlite.SaveURL" c := by
  cases fault with
  | some e0 =>
    cases hc : e0.isConstraintUnique <;>
      simp [SaveURL, sqliteExecInsert, hc] at he <;>
      exact ⟨_, he.symm⟩
  | none =>
    cases hl : aliasLive db a with
    | true =>
      rw [saveURL_duplicate db u a hl] at he
      exact ⟨.errURLExists, by simpa using he.symm⟩
    | false =>
      rw [saveURL_ok db u a hl] at he
      exact absurd he (by simp)

/-- Every error `DeleteURL` can return is `fmt.Errorf`-wrapped with the
operation name `storage.sqlite.DeleteURL` around an underlying cause. -/
theorem deleteURL_error_wrapped (fault : Option GoErr) (db : DB) (a : String)
    (e : GoErr) (he : (DeleteURL fault db a).1 = .error e) :
    ∃ c, e = .wrap "storage.sqlite.DeleteURL: execute statement" c := by
  cases fault with
  | some e0 =>
    simp [DeleteURL, sqliteExecDelete] at he
    exact ⟨_, he.symm⟩
  | none =>
    rw [deleteURL_eq db a] at he
    exact absurd he (by simp)

/-- Every error `GetURL` can return is either the bare sentinel
`storage.ErrURLNotFound` or `fmt.Errorf`-wrapped with the operation name. -/
theorem getURL_error_shape (fault : Option GoErr) (db : DB) (a : String)
    (e : GoErr) (he : GetURL fault db a = .error e) :
    e = GoErr.errURLNotFound ∨
    ∃ c, e = .wrap "storage.sqlite.GetURL: execute statement" c := by
  cases fault with
  | some e0 =>
    cases hn : e0.is .sqlNoRows <;> simp [GetURL, sqliteQueryRowScan, hn] at he
    · exact .inr ⟨_, he.symm⟩
    · exact .inl he.symm
  | none =>
    cases hf : db.rows.find? (fun r => r.«alias» == a) <;>
      simp [GetURL, sqliteQueryRowScan, hf, GoErr.is] at he
    · exact .inl he.symm

/-- C8 counterexample: on an empty table, `GetURL("missing")` returns the
bare sentinel `storage.ErrURLNotFound` — no `fmt.Errorf` wrapping, hence no
operation name and no wrapped cause (source line 124 returns
`storage.ErrURLNotFound` directly instead of `fmt.Errorf("%s: %w", op, ...)`).
This refutes "this holds for ... including the ErrNotFound branch of
GetURL". -/
theorem C8_counterexample_bare_not_found :
    GetURL none ⟨[]⟩ "missing" = .error GoErr.errURLNotFound ∧
    GoErr.hasContext GoErr.errURLNotFound = false ∧
    GoErr.mentionsOp GoErr.errURLNotFound "storage.sqlite.GetURL" = false :=
  ⟨rfl, rfl, rfl⟩

/-- C8 (amended): under any environment fault and any table state, every
error returned by `SaveURL` and `DeleteURL` names the failing operation and
wraps the underlying cause, and every error returned by `GetURL` either does
the same or is exactly the bare typed sentinel `storage.ErrURLNotFound`
(the not-found branch carries no operation context).  The engine itself
performs no logging: the operations are pure functions of the table state
and the fault, returning their errors to the caller. -/
theorem C8_errors_carry_operation_context (fault : Option GoErr) (db : DB)
    (u a : String) :
    (∀ e, (SaveURL fault db u a).1 = .error e →
      e.mentionsOp "storage.sqlite.SaveURL" = true ∧ e.hasContext = true) ∧
    (∀ e, (DeleteURL fault db a).1 = .error e →
      e.mentionsOp "storage.sqlite.DeleteURL" = true ∧ e.hasContext = true) ∧
    (∀ e, GetURL fault db a = .error e →
      e = GoErr.errURLNotFound ∨
      (e.mentionsOp "storage.sqlite.GetURL" = true ∧ e.hasContext = true)) := by
  refine ⟨fun e he => ?_, fun e he => ?_, fun e he => ?_⟩
  · obtain ⟨c, rfl⟩ := saveURL_error_wrapped fault db u a e he
    refine ⟨?_, rfl⟩
    show ("storage.sqlite.SaveURL" : String).data.isPrefixOf
        ("storage.sqlite.SaveURL" : String).data = true
    decide
  · obtain ⟨c, rfl⟩ := deleteURL_error_wrapped fault db a e he
    refine ⟨?_, rfl⟩
    show ("storage.sqlite.DeleteURL" : String).data.isPrefixOf
        ("storage.sqlite.DeleteURL: execute statement" : String).data = true
    decide
  · rcases getURL_error_shape fault db a e he with h | ⟨c, rfl⟩
    · exact .inl h
    · refine .inr ⟨?_, rfl⟩
      show ("storage.sqlite.GetURL" : String).data.isPrefixOf
          ("storage.sqlite.GetURL: execute statement" : String).data = true
      decide

/-- Witness for the amended C8: a duplicate save and an injected delete
fault both come back wrapped with their operation names. -/
theorem C8_errors_carry_operation_context_witness :
    ((SaveURL none ⟨[⟨1, "ex1", "https://example.com"⟩]⟩
        "https://other.com" "ex1").1 =
      .error (.wrap "storage.sqlite.SaveURL" .errURLExists)) ∧
    GoErr.mentionsOp (.wrap "storage.sqlite.SaveURL" .errURLExists)
      "storage.sqlite.SaveURL" = true ∧
    GoErr.hasContext (.wrap "storage.sqlite.SaveURL" .errURLExists) = true :=
  ⟨rfl,
   ((C8_errors_carry_operation_context none
       ⟨[⟨1, "ex1", "https://example.com"⟩]⟩
       "https://other.com" "ex1").1 _ rfl).1,
   ((C8_errors_carry_operation_context none
       ⟨[⟨1, "ex1", "https://example.com"⟩]⟩
       "https://other.com" "ex1").1 _ rfl).2⟩

/-- A serialized execution of several `SaveURL` calls racing on one alias.
Each call's only state-touching step is its single INSERT statement, which
the engine executes atomically, so any concurrent schedule of N calls is
equivalent to running them in some serial order; the list `us` of targets
carries that (arbitrary) order.  Returns the per-call results in order and
the final table. -/
def runSaves (a : String) : List String → DB → List (Except GoErr Int) × DB
  | [], db => ([], db)
  | u :: us, db =>
    let r := SaveURL none db u a
    let rest := runSaves a us r.2
    (r.1 :: rest.1, rest.2)

/-- Whether a `SaveURL` call succeeded. -/
def isOkResult : Except GoErr Int → Bool
  | .ok _ => true
  | .error _ => false

/-- Whether a `SaveURL` call failed with an error that
`errors.Is`-matches `storage.ErrURLExists`. -/
def isAliasExistsResult : Except GoErr Int → Bool
  | .ok _ => false
  | .error e => e.is .errURLExists

/-- Once the alias is live, every further save in the serialized run fails
with the wrapped `storage.ErrURLExists` and the table never changes. -/
theorem runSaves_all_duplicate (a : String) (us : List String) (db : DB)
    (hl : aliasLive db a = true) :
    runSaves a us db =
      (us.map (fun _ =>
        Except.error (GoErr.wrap "storage.sqlite.SaveURL" .errURLExists)), db) := by
  induction us generalizing db with
  | nil => rfl
  | cons u us ih =>
    simp only [runSaves, List.map_cons]
    rw [saveURL_duplicate db u a hl]
    rw [ih db hl]

theorem countP_isOk_map_err (us : List String) :
    ((us.map (fun _ =>
      Except.error (GoErr.wrap "storage.sqlite.SaveURL" .errURLExists) :
        String → Except GoErr Int)).countP isOkResult) = 0 := by
  induction us with
  | nil => rfl
  | cons u us ih =>
    rw [List.map_cons, List.countP_cons, ih]
    simp [isOkResult]

theorem countP_isExists_map_err (us : List String) :
    ((us.map (fun _ =>
      Except.error (GoErr.wrap "storage.sqlite.SaveURL" .errURLExists) :
        String → Except GoErr Int)).countP isAliasExistsResult) = us.length := by
  induction us with
  | nil => rfl
  | cons u us ih =>
    rw [List.map_cons, List.countP_cons, ih]
    simp [isAliasExistsResult, GoErr.is]

/-- C9: N racing `SaveURL(_, a)` calls on a not-yet-live alias, serialized
in an arbitrary order (each call's INSERT is a single atomic engine
statement, so every concurrent schedule is equivalent to some such order),
produce exactly one success and N-1 occurrences of the typed
`storage.ErrURLExists` — never a second success or a silent overwrite. -/
theorem C9_concurrent_saves_one_winner (db : DB) (a : String)
    (us : List String) (h : aliasLive db a = false) (hne : us ≠ []) :
    (runSaves a us db).1.countP isOkResult = 1 ∧
    (runSaves a us db).1.countP isAliasExistsResult = us.length - 1 := by
  cases us with
  | nil => exact absurd rfl hne
  | cons u us =>
    have hlive := aliasLive_after_save db u a h
    simp only [runSaves]
    rw [runSaves_all_duplicate a us _ hlive, saveURL_ok db u a h]
    constructor
    · rw [List.countP_cons, countP_isOk_map_err]
      simp [isOkResult]
    · rw [List.countP_cons, countP_isExists_map_err]
      simp [isAliasExistsResult]

/-- Witness for C9: three racing saves of `ex1` on an empty table — one
winner, two typed duplicate failures. -/
theorem C9_concurrent_saves_one_winner_witness :
    aliasLive ⟨[]⟩ "ex1" = false ∧
    (["u1", "u2", "u3"] : List String) ≠ [] ∧
    (runSaves "ex1" ["u1", "u2", "u3"] ⟨[]⟩).1.countP isOkResult = 1 ∧
    (runSaves "ex1" ["u1", "u2", "u3"] ⟨[]⟩).1.countP isAliasExistsResult = 2 :=
  ⟨rfl, List.cons_ne_nil _ _,
   (C9_concurrent_saves_one_winner ⟨[]⟩ "ex1" ["u1", "u2", "u3"] rfl
      (List.cons_ne_nil _ _)).1,
   (C9_concurrent_saves_one_winner ⟨[]⟩ "ex1" ["u1", "u2", "u3"] rfl
      (List.cons_ne_nil _ _)).2⟩

/-- C10 (implicit): `SaveURL` performs no emptiness validation — called with
an empty alias (or an empty target) on a state where that alias is not live,
it performs the INSERT and succeeds (the SQL `NOT NULL` constraints do not
reject Go's empty string, which is not NULL), creating a live record that a
following `GetURL` returns; the interface's non-empty precondition is not
enforced at this layer. -/
theorem C10_no_emptiness_validation (db : DB) (u : String) :
    (aliasLive db "" = false →
      (SaveURL none db u "").1 = .ok (nextRowid db.rows) ∧
      aliasLive (SaveURL none db u "").2 "" = true ∧
      GetURL none (SaveURL none db u "").2 "" = .ok u) ∧
    (∀ a, aliasLive db a = false →
      (SaveURL none db "" a).1 = .ok (nextRowid db.rows) ∧
      GetURL none (SaveURL none db "" a).2 a = .ok "") := by
  constructor
  · intro h
    exact ⟨by rw [saveURL_ok db u "" h], aliasLive_after_save db u "" h,
      getURL_after_save db u "" h⟩
  · intro a h
    exact ⟨by rw [saveURL_ok db "" a h], getURL_after_save db "" a h⟩

/-- Witness for C10: saving the empty string under the empty alias on an
empty table succeeds with id 1 and `GetURL("")` returns it. -/
theorem C10_no_emptiness_validation_witness :
    aliasLive ⟨[]⟩ "" = false ∧
    (SaveURL none ⟨[]⟩ "" "").1 = .ok 1 ∧
    aliasLive (SaveURL none ⟨[]⟩ "" "").2 "" = true ∧
    GetURL none (SaveURL none ⟨[]⟩ "" "").2 "" = .ok "" :=
  ⟨rfl, (C10_no_emptiness_validation ⟨[]⟩ "").1 rfl⟩
